import Mathlib

/-!
Verification of the `BaseReport` class of `reporter/base.py`
(django-reporter): a shallow embedding of its construction, date-window
computation, output-target selection, CSV serialization, and send pipeline,
with theorems settling the specification's claims about it.
-/

namespace Reporter

/-!
## Calendar model

`BaseReport.set_dates` computes `self.date + datetime.timedelta(days=1)`,
`self.date - datetime.timedelta(days=7)` and
`self.date - datetime.timedelta(days=32)` (base.py lines 68-70).
Python's `datetime.date` is a proleptic-Gregorian calendar date; adding a
`timedelta` of k days moves k steps through the calendar.  We embed dates as
(year, month, day) triples, with the Gregorian leap rule and month lengths,
and embed the timedelta arithmetic as iterated calendar successor /
predecessor.  `toOrdinal` mirrors `datetime.date.toordinal` (days since
0001-01-01 = day 1) and is the linear measure the date-window claim is
stated against.
-/

structure Date where
  year : Nat
  month : Nat
  day : Nat
deriving DecidableEq

/-- Gregorian leap-year rule, as in Python's `calendar.isleap`:
divisible by 4 and (not by 100 or by 400). -/
def isLeap (y : Nat) : Prop := (y % 4 = 0 ∧ y % 100 ≠ 0) ∨ y % 400 = 0

instance (y : Nat) : Decidable (isLeap y) :=
  decidable_of_iff ((y % 4 = 0 ∧ y % 100 ≠ 0) ∨ y % 400 = 0) Iff.rfl

/-- Length of month `m` of year `y`, as in Python's `datetime._days_in_month`. -/
def daysInMonth (y m : Nat) : Nat :=
  if m = 2 then (if isLeap y then 29 else 28)
  else if m = 4 ∨ m = 6 ∨ m = 9 ∨ m = 11 then 30
  else 31

/-- A valid calendar date (month in 1..12, day in range for the month). -/
def Date.valid (d : Date) : Prop :=
  1 ≤ d.year ∧ 1 ≤ d.month ∧ d.month ≤ 12 ∧ 1 ≤ d.day ∧
    d.day ≤ daysInMonth d.year d.month

instance (d : Date) : Decidable d.valid :=
  decidable_of_iff
    (1 ≤ d.year ∧ 1 ≤ d.month ∧ d.month ≤ 12 ∧ 1 ≤ d.day ∧
      d.day ≤ daysInMonth d.year d.month) Iff.rfl

/-- Days in the months strictly before month `m` in a non-leap year, as in
Python's `datetime._DAYS_BEFORE_MONTH` table. -/
def daysBeforeMonthTable : Nat → Nat
  | 1 => 0
  | 2 => 31
  | 3 => 59
  | 4 => 90
  | 5 => 120
  | 6 => 151
  | 7 => 181
  | 8 => 212
  | 9 => 243
  | 10 => 273
  | 11 => 304
  | 12 => 334
  | _ => 0

/-- Days in the months of year `y` strictly before month `m`, as in Python's
`datetime._days_before_month`. -/
def daysBeforeMonth (y m : Nat) : Nat :=
  daysBeforeMonthTable m + if 2 < m ∧ isLeap y then 1 else 0

/-- Days in the years strictly before year `y`, as in Python's
`datetime._days_before_year`. -/
def daysBeforeYear (y : Nat) : Nat :=
  365 * (y - 1) + (y - 1) / 4 - (y - 1) / 100 + (y - 1) / 400

/-- `datetime.date.toordinal`: 0001-01-01 is day 1. -/
def toOrdinal (d : Date) : Nat :=
  daysBeforeYear d.year + daysBeforeMonth d.year d.month + d.day

/-- The calendar successor of a date (next day, rolling over months/years). -/
def succDate (d : Date) : Date :=
  if d.day < daysInMonth d.year d.month then ⟨d.year, d.month, d.day + 1⟩
  else if d.month < 12 then ⟨d.year, d.month + 1, 1⟩
  else ⟨d.year + 1, 1, 1⟩

/-- The calendar predecessor of a date. -/
def predDate (d : Date) : Date :=
  if 1 < d.day then ⟨d.year, d.month, d.day - 1⟩
  else if 1 < d.month then ⟨d.year, d.month - 1, daysInMonth d.year (d.month - 1)⟩
  else ⟨d.year - 1, 12, 31⟩

/-- `d + timedelta(days=n)`: n calendar steps forward. -/
def addDays (d : Date) : Nat → Date
  | 0 => d
  | n + 1 => addDays (succDate d) n

/-- `d - timedelta(days=n)`: n calendar steps backward. -/
def subDays (d : Date) : Nat → Date
  | 0 => d
  | n + 1 => subDays (predDate d) n

lemma daysInMonth_pos (y m : Nat) : 1 ≤ daysInMonth y m := by
  unfold daysInMonth
  split_ifs <;> norm_num

lemma daysBeforeYear_succ (y : Nat) (hy : 1 ≤ y) :
    daysBeforeYear (y + 1) =
      daysBeforeYear y + 365 + (if isLeap y then 1 else 0) := by
  have h4 : y / 4 = (y - 1) / 4 + (if y % 4 = 0 then 1 else 0) := by
    by_cases h : y % 4 = 0 <;> simp [h] <;> omega
  have h100 : y / 100 = (y - 1) / 100 + (if y % 100 = 0 then 1 else 0) := by
    by_cases h : y % 100 = 0 <;> simp [h] <;> omega
  have h400 : y / 400 = (y - 1) / 400 + (if y % 400 = 0 then 1 else 0) := by
    by_cases h : y % 400 = 0 <;> simp [h] <;> omega
  have hle : (y - 1) / 100 ≤ (y - 1) / 4 :=
    Nat.div_le_div_left (by norm_num) (by norm_num)
  unfold daysBeforeYear isLeap
  simp only [Nat.add_sub_cancel]
  rw [h4, h100, h400]
  generalize (y - 1) / 4 = a at *
  generalize (y - 1) / 100 = b at *
  generalize (y - 1) / 400 = c at *
  by_cases ha : y % 4 = 0 <;> by_cases hb : y % 100 = 0 <;>
    by_cases hc : y % 400 = 0 <;> simp [ha, hb, hc] <;> omega

lemma daysBeforeYear_le_one (y : Nat) (hy : y ≤ 1) : daysBeforeYear y = 0 := by
  interval_cases y <;> decide

lemma daysBeforeMonth_one (y : Nat) : daysBeforeMonth y 1 = 0 := by
  unfold daysBeforeMonth daysBeforeMonthTable
  norm_num

lemma daysBeforeMonth_twelve (y : Nat) :
    daysBeforeMonth y 12 = 334 + (if isLeap y then 1 else 0) := by
  unfold daysBeforeMonth daysBeforeMonthTable
  by_cases hL : isLeap y <;> simp [hL]

lemma daysInMonth_jan (y : Nat) : daysInMonth y 1 = 31 := by
  unfold daysInMonth
  norm_num

lemma daysInMonth_dec (y : Nat) : daysInMonth y 12 = 31 := by
  unfold daysInMonth
  norm_num

lemma daysBeforeMonth_step (y m : Nat) (h1 : 1 ≤ m) (h2 : m ≤ 11) :
    daysBeforeMonth y (m + 1) = daysBeforeMonth y m + daysInMonth y m := by
  unfold daysBeforeMonth daysInMonth
  by_cases hL : isLeap y <;>
    interval_cases m <;>
      simp [daysBeforeMonthTable, hL]

/-- The calendar successor is valid and advances the ordinal by exactly one,
for every valid date: month boundaries, year boundaries and leap years
included. -/
theorem succDate_correct (d : Date) (h : d.valid) :
    (succDate d).valid ∧ toOrdinal (succDate d) = toOrdinal d + 1 := by
  obtain ⟨y, m, day⟩ := d
  have h' : 1 ≤ y ∧ 1 ≤ m ∧ m ≤ 12 ∧ 1 ≤ day ∧ day ≤ daysInMonth y m := h
  obtain ⟨hy, hm1, hm2, hd1, hd2⟩ := h'
  clear h
  unfold succDate
  dsimp only
  split_ifs with h1 h2
  · constructor
    · show 1 ≤ y ∧ 1 ≤ m ∧ m ≤ 12 ∧ 1 ≤ day + 1 ∧ day + 1 ≤ daysInMonth y m
      omega
    · show daysBeforeYear y + daysBeforeMonth y m + (day + 1) =
        daysBeforeYear y + daysBeforeMonth y m + day + 1
      omega
  · -- last day of a month before December: roll to (m+1, 1)
    have hstep := daysBeforeMonth_step y m hm1 (by omega)
    have hpos := daysInMonth_pos y (m + 1)
    constructor
    · show 1 ≤ y ∧ 1 ≤ m + 1 ∧ m + 1 ≤ 12 ∧ 1 ≤ 1 ∧ 1 ≤ daysInMonth y (m + 1)
      omega
    · show daysBeforeYear y + daysBeforeMonth y (m + 1) + 1 =
        daysBeforeYear y + daysBeforeMonth y m + day + 1
      omega
  · -- December 31: roll to (y+1, 1, 1)
    have hm12 : m = 12 := by omega
    subst hm12
    have h31 := daysInMonth_dec y
    have hd31 : day = 31 := by omega
    subst hd31
    have hs := daysBeforeYear_succ y hy
    have h12 := daysBeforeMonth_twelve y
    have hone := daysBeforeMonth_one (y + 1)
    have hjan := daysInMonth_jan (y + 1)
    constructor
    · show 1 ≤ y + 1 ∧ 1 ≤ 1 ∧ 1 ≤ 12 ∧ 1 ≤ 1 ∧ 1 ≤ daysInMonth (y + 1) 1
      omega
    · show daysBeforeYear (y + 1) + daysBeforeMonth (y + 1) 1 + 1 =
        daysBeforeYear y + daysBeforeMonth y 12 + 31 + 1
      omega

/-- The calendar predecessor is valid and decreases the ordinal by exactly
one, for every valid date after day 1 of the calendar. -/
theorem predDate_correct (d : Date) (h : d.valid) (h2 : 2 ≤ toOrdinal d) :
    (predDate d).valid ∧ toOrdinal (predDate d) + 1 = toOrdinal d := by
  obtain ⟨y, m, day⟩ := d
  have h' : 1 ≤ y ∧ 1 ≤ m ∧ m ≤ 12 ∧ 1 ≤ day ∧ day ≤ daysInMonth y m := h
  obtain ⟨hy, hm1, hm2, hd1, hd2⟩ := h'
  have h2' : 2 ≤ daysBeforeYear y + daysBeforeMonth y m + day := h2
  clear h h2
  unfold predDate
  dsimp only
  split_ifs with h1 h3
  · constructor
    · show 1 ≤ y ∧ 1 ≤ m ∧ m ≤ 12 ∧ 1 ≤ day - 1 ∧ day - 1 ≤ daysInMonth y m
      omega
    · show daysBeforeYear y + daysBeforeMonth y m + (day - 1) + 1 =
        daysBeforeYear y + daysBeforeMonth y m + day
      omega
  · -- day 1 of a month after January: roll back to end of previous month
    have hde : day = 1 := by omega
    subst hde
    obtain ⟨k, rfl⟩ : ∃ k, m = k + 1 := ⟨m - 1, by omega⟩
    have hstep := daysBeforeMonth_step y k (by omega) (by omega)
    have hpos := daysInMonth_pos y k
    constructor
    · show 1 ≤ y ∧ 1 ≤ k ∧ k ≤ 12 ∧ 1 ≤ daysInMonth y k ∧
        daysInMonth y k ≤ daysInMonth y k
      omega
    · show daysBeforeYear y + daysBeforeMonth y k + daysInMonth y k + 1 =
        daysBeforeYear y + daysBeforeMonth y (k + 1) + 1
      omega
  · -- January 1: roll back to December 31 of the previous year
    have hde : day = 1 := by omega
    have hme : m = 1 := by omega
    subst hde
    subst hme
    have hone := daysBeforeMonth_one y
    have hy2 : 2 ≤ y := by
      by_contra hc
      push_neg at hc
      have h0 := daysBeforeYear_le_one y (by omega)
      omega
    obtain ⟨z, rfl⟩ : ∃ z, y = z + 2 := ⟨y - 2, by omega⟩
    have hs := daysBeforeYear_succ (z + 1) (by omega)
    have h12 := daysBeforeMonth_twelve (z + 1)
    have hdec := daysInMonth_dec (z + 1)
    have hone2 := daysBeforeMonth_one (z + 2)
    constructor
    · show 1 ≤ z + 1 ∧ 1 ≤ 12 ∧ 12 ≤ 12 ∧ 1 ≤ 31 ∧ 31 ≤ daysInMonth (z + 1) 12
      omega
    · show daysBeforeYear (z + 1) + daysBeforeMonth (z + 1) 12 + 31 + 1 =
        daysBeforeYear (z + 1 + 1) + daysBeforeMonth (z + 2) 1 + 1
      rw [hs]
      omega

theorem addDays_correct (n : Nat) (d : Date) (h : d.valid) :
    (addDays d n).valid ∧ toOrdinal (addDays d n) = toOrdinal d + n := by
  induction n generalizing d with
  | zero => exact ⟨h, rfl⟩
  | succ k ih =>
    obtain ⟨hv, ho⟩ := succDate_correct d h
    obtain ⟨hv', ho'⟩ := ih (succDate d) hv
    exact ⟨hv', by unfold addDays; omega⟩

theorem subDays_correct (n : Nat) (d : Date) (h : d.valid)
    (hlt : n < toOrdinal d) :
    (subDays d n).valid ∧ toOrdinal (subDays d n) + n = toOrdinal d := by
  induction n generalizing d with
  | zero => exact ⟨h, rfl⟩
  | succ k ih =>
    obtain ⟨hv, ho⟩ := predDate_correct d h (by omega)
    obtain ⟨hv', ho'⟩ := ih (predDate d) hv (by omega)
    exact ⟨hv', by unfold subDays; omega⟩

/-!
## The date argument, `set_dates` (base.py lines 56-70)

`set_dates` checks `type(date) is datetime.date`: an exact-type test.  A
`datetime.datetime` (a subclass of `date`), a string, `None`, or anything
else fails the test and is silently replaced by `datetime.date.today()`.
`PyDateArg` enumerates the kinds of Python value relevant to that test.
-/

inductive PyDateArg where
  | none
  | date (d : Date)
  | datetime (d : Date) (hour minute second : Nat)
  | str (s : String)
  | other
deriving DecidableEq

/-- The reference date `self.date`: the argument when it is exactly a
`datetime.date`, else today (base.py lines 64-67). -/
def chosenDate (arg : PyDateArg) (today : Date) : Date :=
  match arg with
  | PyDateArg.date d => d
  | _ => today

structure DateWindow where
  date : Date
  tomorrow : Date
  one_week : Date
  one_month : Date
deriving DecidableEq

/-- `BaseReport.set_dates` (base.py lines 56-70): `tomorrow = date + 1 day`,
`one_week = date - 7 days`, `one_month = date - 32 days`. -/
def set_dates (arg : PyDateArg) (today : Date) : DateWindow :=
  ⟨chosenDate arg today,
   addDays (chosenDate arg today) 1,
   subDays (chosenDate arg today) 7,
   subDays (chosenDate arg today) 32⟩

/-!
## Report construction and the run/send pipeline

`Subclass` describes a concrete report class: its `name`, `frequencies`
class attributes, and which of the three abstract hooks it overrides
(together with what the overriding methods return).  `init` embeds
`BaseReport.__init__` (base.py lines 23-39), `get_file` lines 41-54,
`run_report` lines 90-99 and `send_results` lines 101-144.

Python truthiness matters in three places: `if filename or view` (line 32,
an empty-string filename is falsy), `if not filename` (line 48), and
`if recipients` / `if not self.recipients` (lines 36, 106, an empty
recipient list is falsy).

Exceptions are modelled by `PyError`.  `notAvailable` is the module's
`NotAvailable` exception (the spec's name for it is
`UnsupportedFrequencyError`).  `typeError` models the Python `TypeError`
raised by a call whose arguments do not match the callee's signature.
The effects of one run (hook invocation, email composition and dispatch,
temp-file removal) are recorded in `RunEffects`; an uncaught exception is
the `Option PyError` component, and the effects record keeps the effects
that had already happened when it was raised.
-/

inductive OutputTarget where
  | stdout
  | tempfile
  | file (path : String)
deriving DecidableEq

inductive PyError where
  | notAvailable (msg : String)
  | typeError
  | notImplementedError
  | transportError
deriving DecidableEq

structure Subclass where
  name : String
  frequencies : List String
  overridesGetData : Bool
  data : List (List String)
  overridesGetDefaultRecipients : Bool
  defaultRecipients : List String
  overridesGetEmailSubject : Bool
  emailSubject : String
deriving DecidableEq

structure ReportState where
  frequency : String
  window : DateWindow
  view : Bool
  send : Bool
  target : OutputTarget
  recipients : Option (List String)
deriving DecidableEq

/-- `'~' in filename` (base.py line 52). -/
def hasTilde : List Char → Bool
  | [] => false
  | c :: cs => c == '~' || hasTilde cs

def replaceTildeAux (home : List Char) : List Char → List Char
  | [] => []
  | c :: cs => (if c = '~' then home else [c]) ++ replaceTildeAux home cs

/-- `filename.replace('~', os.path.expanduser('~'))` (base.py line 53):
every occurrence of `'~'` anywhere in the filename is replaced by the
home directory. -/
def replaceTilde (home s : String) : String := ⟨replaceTildeAux home.data s.data⟩

/-- `BaseReport.get_file` (base.py lines 41-54): view → stdout; falsy
filename → named temporary file; otherwise open the (tilde-expanded)
path for writing. -/
def get_file (view : Bool) (filename : Option String) (home : String) :
    OutputTarget :=
  if view then OutputTarget.stdout
  else
    match filename with
    | Option.none => OutputTarget.tempfile
    | Option.some f =>
      if f = "" then OutputTarget.tempfile
      else if hasTilde f.data then OutputTarget.file (replaceTilde home f)
      else OutputTarget.file f

/-- Truthiness of the `recipients` argument (`if recipients:`, line 36). -/
def optListTruthy : Option (List String) → Bool
  | Option.none => false
  | Option.some l => !l.isEmpty

/-- Truthiness of the `filename` argument (`if filename or view:`, line 32). -/
def optStrTruthy : Option String → Bool
  | Option.none => false
  | Option.some s => !(s == "")

/-- `BaseReport.__init__` (base.py lines 23-39).  `today` is
`datetime.date.today()` and `home` is `os.path.expanduser('~')`; the
`Site.objects.get_current()` and `report_args` assignments touch nothing
the claims are about and are omitted. -/
def init (cls : Subclass) (frequency : String) (dateArg : PyDateArg)
    (view : Bool) (filename : Option String)
    (recipients : Option (List String)) (today : Date) (home : String) :
    Except PyError ReportState :=
  if frequency ∈ cls.frequencies then
    Except.ok
      ⟨frequency,
       set_dates dateArg today,
       view,
       !(optStrTruthy filename || view),
       get_file view filename home,
       if optListTruthy recipients then recipients else Option.none⟩
  else
    Except.error (PyError.notAvailable
      ("The " ++ frequency ++ " frequency is not available for the " ++
        cls.name ++ " report."))

/-- Calling `self.get_data()`: the override's table, or the base method's
`raise NotImplementedError` (base.py lines 79-81). -/
def get_data_call (cls : Subclass) : Except PyError (List (List String)) :=
  if cls.overridesGetData then Except.ok cls.data
  else Except.error PyError.notImplementedError

/-- The body of the base `get_default_recipients` (base.py line 77). -/
def base_get_default_recipients_body : Except PyError (List String) :=
  Except.error PyError.notImplementedError

/-- The call `self.get_default_recipients()` (base.py line 107).  The base
method's signature is `get_default_recipients(self, recipients)` (line 72)
but the call passes no argument, so when the subclass does not override the
hook the call raises `TypeError` (missing positional argument) before the
body's `raise NotImplementedError` is ever reached. -/
def call_get_default_recipients (cls : Subclass) :
    Except PyError (List String) :=
  if cls.overridesGetDefaultRecipients then Except.ok cls.defaultRecipients
  else Except.error PyError.typeError

/-- Calling `self.get_email_subject()` (base.py lines 83-88, 115-116). -/
def get_email_subject_call (cls : Subclass) : Except PyError String :=
  if cls.overridesGetEmailSubject then Except.ok cls.emailSubject
  else Except.error PyError.notImplementedError

structure RunEffects where
  usedDefaultRecipients : Bool
  emailComposed : Bool
  emailSent : Bool
  removedFile : Bool
deriving DecidableEq

/-- `send_results` after recipient resolution (base.py lines 109-144):
re-fetch the data, get the subject, render the bodies, compose the email
(line 138), dispatch it (line 142), and only after a successful send
delete the written file (line 144).  A transport failure propagates and
skips the deletion. -/
def send_results_rest (cls : Subclass) (usedDefault : Bool)
    (transportOk : Bool) : RunEffects × Option PyError :=
  match get_data_call cls with
  | Except.error e => (⟨usedDefault, false, false, false⟩, Option.some e)
  | Except.ok _ =>
    match get_email_subject_call cls with
    | Except.error e => (⟨usedDefault, false, false, false⟩, Option.some e)
    | Except.ok _ =>
      if transportOk then (⟨usedDefault, true, true, true⟩, Option.none)
      else (⟨usedDefault, true, false, false⟩, Option.some PyError.transportError)

/-- `send_results` (base.py lines 101-144): resolve recipients via the
hook when `self.recipients` is falsy (lines 106-107), then the rest. -/
def send_results (cls : Subclass) (st : ReportState) (transportOk : Bool) :
    RunEffects × Option PyError :=
  match st.recipients with
  | Option.some _ => send_results_rest cls false transportOk
  | Option.none =>
    match call_get_default_recipients cls with
    | Except.error e => (⟨true, false, false, false⟩, Option.some e)
    | Except.ok _ => send_results_rest cls true transportOk

/-- `run_report` (base.py lines 90-99): write the CSV, close the file,
and send only when `self.send` is set. -/
def run_report (cls : Subclass) (st : ReportState) (transportOk : Bool) :
    RunEffects × Option PyError :=
  match get_data_call cls with
  | Except.error e => (⟨false, false, false, false⟩, Option.some e)
  | Except.ok _ =>
    if st.send then send_results cls st transportOk
    else (⟨false, false, false, false⟩, Option.none)

/-!
## CSV serialization (base.py lines 93-94)

`csv.writer(self.file)` with the default `excel` dialect: fields joined
with `,`, rows terminated with `\r\n`, and QUOTE_MINIMAL quoting — a field
is wrapped in double quotes exactly when it contains the delimiter, the
quote character, or a line-terminator character, with embedded quote
characters doubled.  `w.writerows(self.get_data())` writes every row of
the table in order, header first.
-/

def needsQuote (s : String) : Bool :=
  s.data.any (fun c => c == ',' || c == '"' || c == '\r' || c == '\n')

def escapeQuotes : List Char → List Char
  | [] => []
  | c :: cs =>
    if c = '"' then '"' :: '"' :: escapeQuotes cs else c :: escapeQuotes cs

def csvField (s : String) : String :=
  if needsQuote s then "\"" ++ String.mk (escapeQuotes s.data) ++ "\"" else s

def csvLine (row : List String) : String :=
  String.intercalate "," (row.map csvField) ++ "\r\n"

def joinAll : List String → String
  | [] => ""
  | s :: l => s ++ joinAll l

/-- The bytes `w.writerows(data)` writes: one CSV line per row, in order. -/
def writerows (rows : List (List String)) : String :=
  joinAll (rows.map csvLine)

/-!
## Plain-text email body (base.py lines 127-136)

`send_results` renders the table as a fixed-width bordered table.
`column_max_lens` is line 127: for each column index of the header row,
the maximum cell length over all rows (header included).  The border and
row lines are built with `+`/`-` and `|`, each cell right-padded with
spaces to the column width — and each line is terminated with `"\n\r"`
(newline followed by carriage return), exactly as the source writes it.
-/

def column_max_lens (data : List (List String)) : List Nat :=
  (List.range (data.headD []).length).map
    (fun i => ((data.map (fun row => (row.getD i "").length)).foldl Nat.max 0))

def dashes (n : Nat) : String := String.mk (List.replicate n '-')

def spaces (n : Nat) : String := String.mk (List.replicate n ' ')

def border_line (lens : List Nat) : String :=
  "+" ++ String.intercalate "+" (lens.map dashes) ++ "+" ++ "\n\r"

def padded_cell (w : Nat) (s : String) : String := s ++ spaces (w - s.length)

def row_line (lens : List Nat) (row : List String) : String :=
  "|" ++ String.intercalate "|"
    ((List.range row.length).map
      (fun i => padded_cell (lens.getD i 0) (row.getD i ""))) ++ "|" ++ "\n\r"

/-- The `text_content` string built in `send_results` (lines 129-136):
border, header row, border, the data rows, border. -/
def text_content (data : List (List String)) : String :=
  border_line (column_max_lens data)
    ++ row_line (column_max_lens data) (data.headD [])
    ++ border_line (column_max_lens data)
    ++ joinAll ((data.drop 1).map (row_line (column_max_lens data)))
    ++ border_line (column_max_lens data)

/-!
## The spec's wording of the renderings (for refinement comparison)

`spec_render term data` is written from the specification's words
(§4.1.a): column widths are the maximum string length of any value in the
column including the header; every row of the table is rendered as `ncols`
cells right-padded to the column widths, between `+`/`-` border lines,
with every line terminated by `term`.  The claim asserts
`term = "\r\n"` (carriage-return + newline); the code writes `"\n\r"`.
`leading_tilde_expand` is the claim's wording of the filename expansion
(only a leading `~` is expanded).
-/

def spec_col_width (data : List (List String)) (i : Nat) : Nat :=
  data.foldl (fun acc row => Nat.max acc (row.getD i "").length) 0

def spec_widths (data : List (List String)) : List Nat :=
  (List.range (data.headD []).length).map (spec_col_width data)

def spec_border (widths : List Nat) (term : String) : String :=
  "+" ++ String.intercalate "+"
    (widths.map (fun w => String.mk (List.replicate w '-'))) ++ "+" ++ term

def spec_cell (w : Nat) (s : String) : String :=
  s ++ String.mk (List.replicate (w - s.length) ' ')

def spec_row (ncols : Nat) (widths : List Nat) (row : List String)
    (term : String) : String :=
  "|" ++ String.intercalate "|"
    ((List.range ncols).map
      (fun i => spec_cell (widths.getD i 0) (row.getD i ""))) ++ "|" ++ term

def spec_render (term : String) (data : List (List String)) : String :=
  spec_border (spec_widths data) term
    ++ spec_row (data.headD []).length (spec_widths data) (data.headD []) term
    ++ spec_border (spec_widths data) term
    ++ joinAll ((data.drop 1).map
        (fun r => spec_row (data.headD []).length (spec_widths data) r term))
    ++ spec_border (spec_widths data) term

/-- The claim's filename rule: expand a `~` only when it is the leading
character. -/
def leading_tilde_expand (home : String) (f : String) : String :=
  match f.data with
  | '~' :: rest => home ++ String.mk rest
  | _ => f

/-!
## Helper lemmas about the pipeline
-/

lemma optListTruthy_some (l : List String) (hl : l ≠ []) :
    optListTruthy (Option.some l) = true := by
  unfold optListTruthy
  cases l with
  | nil => exact absurd rfl hl
  | cons a t => rfl

lemma send_results_rest_used (cls : Subclass) (u t : Bool) :
    (send_results_rest cls u t).1.usedDefaultRecipients = u := by
  unfold send_results_rest
  cases get_data_call cls with
  | error e => rfl
  | ok d =>
    cases get_email_subject_call cls with
    | error e => rfl
    | ok s => cases t <;> rfl

lemma send_results_used_of_some (cls : Subclass) (st : ReportState)
    (l : List String) (hr : st.recipients = Option.some l) (t : Bool) :
    (send_results cls st t).1.usedDefaultRecipients = false := by
  unfold send_results
  rw [hr]
  exact send_results_rest_used cls false t

lemma run_report_used_of_some (cls : Subclass) (st : ReportState)
    (l : List String) (hr : st.recipients = Option.some l) (t : Bool) :
    (run_report cls st t).1.usedDefaultRecipients = false := by
  unfold run_report
  cases get_data_call cls with
  | error e => rfl
  | ok d =>
    by_cases hs : st.send = true
    · rw [if_pos hs]
      exact send_results_used_of_some cls st l hr t
    · rw [if_neg hs]

lemma run_report_no_send (cls : Subclass) (st : ReportState) (t : Bool)
    (hs : st.send = false) :
    (run_report cls st t).1 = ⟨false, false, false, false⟩ := by
  unfold run_report
  cases get_data_call cls with
  | error e => rfl
  | ok d => simp [hs]

lemma send_results_rest_eval (cls : Subclass) (u : Bool)
    (hgd : cls.overridesGetData = true)
    (hsub : cls.overridesGetEmailSubject = true) :
    send_results_rest cls u true = (⟨u, true, true, true⟩, Option.none) ∧
    send_results_rest cls u false =
      (⟨u, true, false, false⟩, Option.some PyError.transportError) := by
  unfold send_results_rest get_data_call get_email_subject_call
  rw [hgd, hsub]
  exact ⟨rfl, rfl⟩

lemma replaceTildeAux_id (home : List Char) (l : List Char)
    (h : hasTilde l = false) : replaceTildeAux home l = l := by
  induction l with
  | nil => rfl
  | cons c cs ih =>
    unfold hasTilde at h
    rw [Bool.or_eq_false_iff] at h
    obtain ⟨h1, h2⟩ := h
    have hc : ¬(c = '~') := by simpa using h1
    unfold replaceTildeAux
    rw [if_neg hc, ih h2]
    rfl

lemma replaceTilde_id (home f : String) (h : hasTilde f.data = false) :
    replaceTilde home f = f := by
  unfold replaceTilde
  rw [replaceTildeAux_id home.data f.data h]

lemma column_max_lens_eq_spec_widths (data : List (List String)) :
    column_max_lens data = spec_widths data := by
  unfold column_max_lens spec_widths spec_col_width
  refine List.map_congr_left ?_
  intro i _
  rw [List.foldl_map]

lemma border_line_eq_spec_border (l : List Nat) :
    border_line l = spec_border l "\n\r" := rfl

lemma row_line_eq_spec_row (lens : List Nat) (row : List String) :
    row_line lens row = spec_row row.length lens row "\n\r" := rfl

/-!
## The claims
-/

/-- Claim C1: for every subclass with a declared supported-frequency set,
constructing a report with a frequency in that set succeeds, and
constructing one with any frequency outside that set fails with the
unsupported-frequency error (the module's `NotAvailable` exception, which
the specification calls `UnsupportedFrequencyError`), base.py
lines 25-27. -/
theorem c1_frequency_check (cls : Subclass) (freq : String)
    (dateArg : PyDateArg) (view : Bool) (filename : Option String)
    (recipients : Option (List String)) (today : Date) (home : String) :
    ((∃ st, init cls freq dateArg view filename recipients today home =
        Except.ok st) ↔ freq ∈ cls.frequencies) ∧
    (freq ∉ cls.frequencies →
      init cls freq dateArg view filename recipients today home =
        Except.error (PyError.notAvailable
          ("The " ++ freq ++ " frequency is not available for the " ++
            cls.name ++ " report."))) := by
  unfold init
  by_cases h : freq ∈ cls.frequencies
  · rw [if_pos h]
    exact ⟨⟨fun _ => h, fun _ => ⟨_, rfl⟩⟩, fun hn => absurd h hn⟩
  · rw [if_neg h]
    refine ⟨⟨fun hex => ?_, fun hmem => absurd hmem h⟩, fun _ => rfl⟩
    obtain ⟨st, hst⟩ := hex
    exact Except.noConfusion hst

/-- Witness for C1 at a concrete subclass: `"daily"` is supported and
construction succeeds; `"monthly"` is not and construction fails with the
formatted `NotAvailable` error. -/
theorem c1_witness :
    (∃ st, init ⟨"signups", ["daily", "weekly"], true, [["h"], ["1"]], true,
        ["a@example.com"], true, "Subj"⟩ "daily" PyDateArg.none false
        Option.none Option.none ⟨2024, 1, 2⟩ "/home/u" = Except.ok st) ∧
    init ⟨"signups", ["daily", "weekly"], true, [["h"], ["1"]], true,
        ["a@example.com"], true, "Subj"⟩ "monthly" PyDateArg.none false
        Option.none Option.none ⟨2024, 1, 2⟩ "/home/u" =
      Except.error (PyError.notAvailable
        ("The " ++ "monthly" ++ " frequency is not available for the " ++
          "signups" ++ " report.")) :=
  ⟨(c1_frequency_check _ "daily" _ _ _ _ _ _).1.mpr (by decide),
   (c1_frequency_check _ "monthly" _ _ _ _ _ _).2 (by decide)⟩

/-- Claim C2: for every reference date D (month/year boundaries and leap
years included, and far enough from the calendar floor that 32 days can be
subtracted), the window computed by `set_dates` satisfies
tomorrow = D + 1 day, one_week = D - 7 days and one_month = D - 32 days,
measured by the day ordinal, and all three are valid calendar dates
(base.py lines 68-70). -/
theorem c2_date_window (arg : PyDateArg) (today : Date)
    (h : (chosenDate arg today).valid)
    (h32 : 32 < toOrdinal (chosenDate arg today)) :
    (set_dates arg today).date = chosenDate arg today ∧
    ((set_dates arg today).tomorrow.valid ∧
      toOrdinal (set_dates arg today).tomorrow =
        toOrdinal (chosenDate arg today) + 1) ∧
    ((set_dates arg today).one_week.valid ∧
      toOrdinal (set_dates arg today).one_week + 7 =
        toOrdinal (chosenDate arg today)) ∧
    ((set_dates arg today).one_month.valid ∧
      toOrdinal (set_dates arg today).one_month + 32 =
        toOrdinal (chosenDate arg today)) := by
  unfold set_dates
  dsimp only
  obtain ⟨hav, hao⟩ := addDays_correct 1 (chosenDate arg today) h
  obtain ⟨h7v, h7o⟩ := subDays_correct 7 (chosenDate arg today) h (by omega)
  obtain ⟨h32v, h32o⟩ := subDays_correct 32 (chosenDate arg today) h h32
  exact ⟨rfl, ⟨hav, by omega⟩, ⟨h7v, by omega⟩, ⟨h32v, by omega⟩⟩

/-- Witness for C2 at 2024-02-28 (a leap-year February): the window is
2024-02-29 / 2024-02-21 / 2024-01-27. -/
theorem c2_witness :
    (chosenDate (PyDateArg.date ⟨2024, 2, 28⟩) ⟨2020, 1, 1⟩).valid ∧
    32 < toOrdinal (chosenDate (PyDateArg.date ⟨2024, 2, 28⟩) ⟨2020, 1, 1⟩) ∧
    ((set_dates (PyDateArg.date ⟨2024, 2, 28⟩) ⟨2020, 1, 1⟩).date =
        chosenDate (PyDateArg.date ⟨2024, 2, 28⟩) ⟨2020, 1, 1⟩ ∧
      ((set_dates (PyDateArg.date ⟨2024, 2, 28⟩) ⟨2020, 1, 1⟩).tomorrow.valid ∧
        toOrdinal (set_dates (PyDateArg.date ⟨2024, 2, 28⟩) ⟨2020, 1, 1⟩).tomorrow =
          toOrdinal (chosenDate (PyDateArg.date ⟨2024, 2, 28⟩) ⟨2020, 1, 1⟩) + 1) ∧
      ((set_dates (PyDateArg.date ⟨2024, 2, 28⟩) ⟨2020, 1, 1⟩).one_week.valid ∧
        toOrdinal (set_dates (PyDateArg.date ⟨2024, 2, 28⟩) ⟨2020, 1, 1⟩).one_week + 7 =
          toOrdinal (chosenDate (PyDateArg.date ⟨2024, 2, 28⟩) ⟨2020, 1, 1⟩)) ∧
      ((set_dates (PyDateArg.date ⟨2024, 2, 28⟩) ⟨2020, 1, 1⟩).one_month.valid ∧
        toOrdinal (set_dates (PyDateArg.date ⟨2024, 2, 28⟩) ⟨2020, 1, 1⟩).one_month + 32 =
          toOrdinal (chosenDate (PyDateArg.date ⟨2024, 2, 28⟩) ⟨2020, 1, 1⟩))) :=
  ⟨by decide, by decide,
    c2_date_window (PyDateArg.date ⟨2024, 2, 28⟩) ⟨2020, 1, 1⟩
      (by decide) (by decide)⟩

/-- Claim C3: `run_report` serializes the table returned by `get_data` to
CSV as the header row followed by all data rows with standard
comma-delimited quoting, and on the example table the written bytes are
exactly `a,b\r\n1,2\r\n300,4\r\n` (base.py lines 90-96; the Python `csv`
`excel` dialect always uses the `\r\n` row terminator). -/
theorem c3_csv_serialization :
    (∀ (hdr : List String) (rows : List (List String)),
      writerows (hdr :: rows) = csvLine hdr ++ writerows rows) ∧
    writerows [["a", "b"], ["1", "2"], ["300", "4"]] =
      "a,b\r\n1,2\r\n300,4\r\n" :=
  ⟨fun _ _ => rfl, by decide⟩

/-- Claim C10 (implicit): the date argument is honored only when it is an
instance of exactly `datetime.date`; a datetime (subclass), a string,
`None` or any other value is silently ignored, today's date is used, and
no error is raised — `set_dates` is total (base.py lines 64-67). -/
theorem c10_exact_date_type_check (d : Date) (hr mi se : Nat) (s : String)
    (today : Date) :
    (set_dates (PyDateArg.date d) today).date = d ∧
    (set_dates (PyDateArg.datetime d hr mi se) today).date = today ∧
    (set_dates (PyDateArg.str s) today).date = today ∧
    (set_dates PyDateArg.none today).date = today ∧
    (set_dates PyDateArg.other today).date = today :=
  ⟨rfl, rfl, rfl, rfl, rfl⟩

/-- Counterexample to C4 as stated: on the example table the code's
plain-text rendering is not the claimed rendering with
carriage-return+newline line terminators, because base.py lines 129-136
append `"\n\r"` (newline then carriage return) to every line. -/
theorem c4_crlf_counterexample :
    text_content [["a", "b"], ["1", "2"], ["300", "4"]] ≠
      spec_render "\r\n" [["a", "b"], ["1", "2"], ["300", "4"]] := by
  decide

/-- Claim C4 as amended: for every nonempty rectangular table, the
plain-text email body is the fixed-width bordered table in which each
column's width is the maximum string length of any value in that column
including the header, every cell is right-padded with spaces to that
width, border lines are built from `+` and `-`, columns are separated by
`|` — and every line is terminated by newline followed by carriage return
(`"\n\r"`), not carriage-return+newline. -/
theorem c4_text_table_amended (data : List (List String)) (hne : data ≠ [])
    (hrect : ∀ row ∈ data, row.length = (data.headD []).length) :
    text_content data = spec_render "\n\r" data := by
  have hw := column_max_lens_eq_spec_widths data
  unfold text_content spec_render
  rw [hw]
  rw [row_line_eq_spec_row]
  rw [border_line_eq_spec_border]
  have hrows : (data.drop 1).map (row_line (spec_widths data)) =
      (data.drop 1).map
        (fun r => spec_row (data.headD []).length (spec_widths data) r "\n\r") := by
    refine List.map_congr_left ?_
    intro r hr
    rw [row_line_eq_spec_row, hrect r (List.mem_of_mem_drop hr)]
  rw [hrows]

/-- Witness for C4 (amended) at the example table, whose column widths are
`[3, 1]`. -/
theorem c4_witness :
    ([["a", "b"], ["1", "2"], ["300", "4"]] : List (List String)) ≠ [] ∧
    (∀ row ∈ ([["a", "b"], ["1", "2"], ["300", "4"]] : List (List String)),
      row.length =
        (([["a", "b"], ["1", "2"], ["300", "4"]] :
          List (List String)).headD []).length) ∧
    column_max_lens [["a", "b"], ["1", "2"], ["300", "4"]] = [3, 1] ∧
    text_content [["a", "b"], ["1", "2"], ["300", "4"]] =
      spec_render "\n\r" [["a", "b"], ["1", "2"], ["300", "4"]] :=
  ⟨by decide, by decide, by decide,
    c4_text_table_amended [["a", "b"], ["1", "2"], ["300", "4"]]
      (by decide) (by decide)⟩

/-- Claim C5 (code_bug): the claim says the send step of a subclass that
does not override `get_default_recipients` fails with
`NotImplementedError` — that is the base method's own body (base.py
line 77) — but the base signature `get_default_recipients(self, recipients)`
(line 72) does not match the call `self.get_default_recipients()`
(line 107), so the call raises `TypeError` (missing positional argument)
before the body ever runs.  Evaluated here at a concrete unoverriding
subclass in the temp-file + send configuration. -/
theorem c5_unoverridden_hook_raises_type_error :
    base_get_default_recipients_body =
      Except.error PyError.notImplementedError ∧
    call_get_default_recipients
        ⟨"r", ["daily"], true, [["h"], ["1"]], false, [], true, "s"⟩ =
      Except.error PyError.typeError ∧
    init ⟨"r", ["daily"], true, [["h"], ["1"]], false, [], true, "s"⟩ "daily"
        PyDateArg.none false Option.none Option.none ⟨2024, 1, 2⟩ "/home/u" =
      Except.ok ⟨"daily", set_dates PyDateArg.none ⟨2024, 1, 2⟩, false, true,
        OutputTarget.tempfile, Option.none⟩ ∧
    run_report ⟨"r", ["daily"], true, [["h"], ["1"]], false, [], true, "s"⟩
        ⟨"daily", set_dates PyDateArg.none ⟨2024, 1, 2⟩, false, true,
          OutputTarget.tempfile, Option.none⟩ true =
      (⟨true, false, false, false⟩, Option.some PyError.typeError) :=
  ⟨rfl, rfl, rfl, rfl⟩

/-- Counterexample to C6 as stated: an empty recipient list is explicitly
supplied at construction, yet the run invokes `get_default_recipients`,
because `if recipients:` (base.py line 36) and `if not self.recipients:`
(line 106) treat an empty list like an absent one. -/
theorem c6_empty_recipients_counterexample :
    init ⟨"r", ["daily"], true, [["h"], ["1"]], true, ["d@example.com"],
        true, "s"⟩ "daily" PyDateArg.none false Option.none
        (Option.some []) ⟨2024, 1, 2⟩ "/home/u" =
      Except.ok ⟨"daily", set_dates PyDateArg.none ⟨2024, 1, 2⟩, false, true,
        OutputTarget.tempfile, Option.none⟩ ∧
    (run_report ⟨"r", ["daily"], true, [["h"], ["1"]], true,
        ["d@example.com"], true, "s"⟩
        ⟨"daily", set_dates PyDateArg.none ⟨2024, 1, 2⟩, false, true,
          OutputTarget.tempfile, Option.none⟩ true).1.usedDefaultRecipients =
      true :=
  ⟨rfl, rfl⟩

/-- Claim C6 as amended: for every run in which a non-empty recipient list
is supplied at construction, the `get_default_recipients` hook is never
invoked (supplying an empty list behaves like supplying none). -/
theorem c6_nonempty_recipients_never_default (cls : Subclass) (freq : String)
    (dateArg : PyDateArg) (view : Bool) (filename : Option String)
    (l : List String) (today : Date) (home : String) (st : ReportState)
    (transportOk : Bool) (hl : l ≠ [])
    (h : init cls freq dateArg view filename (Option.some l) today home =
      Except.ok st) :
    (run_report cls st transportOk).1.usedDefaultRecipients = false := by
  unfold init at h
  split at h
  case isTrue hmem =>
    injection h with h'
    subst h'
    refine run_report_used_of_some cls _ l ?_ transportOk
    show (if optListTruthy (Option.some l) then Option.some l
      else Option.none) = Option.some l
    rw [if_pos (optListTruthy_some l hl)]
  case isFalse => exact Except.noConfusion h

/-- Witness for C6 (amended) at a concrete run with recipient list
`["a@example.com"]`. -/
theorem c6_witness :
    (["a@example.com"] : List String) ≠ [] ∧
    init ⟨"r", ["daily"], true, [["h"], ["1"]], true, ["d@example.com"],
        true, "s"⟩ "daily" PyDateArg.none false Option.none
        (Option.some ["a@example.com"]) ⟨2024, 1, 2⟩ "/home/u" =
      Except.ok ⟨"daily", set_dates PyDateArg.none ⟨2024, 1, 2⟩, false, true,
        OutputTarget.tempfile, Option.some ["a@example.com"]⟩ ∧
    (run_report ⟨"r", ["daily"], true, [["h"], ["1"]], true,
        ["d@example.com"], true, "s"⟩
        ⟨"daily", set_dates PyDateArg.none ⟨2024, 1, 2⟩, false, true,
          OutputTarget.tempfile,
          Option.some ["a@example.com"]⟩ true).1.usedDefaultRecipients =
      false :=
  ⟨by decide, rfl,
    c6_nonempty_recipients_never_default
      ⟨"r", ["daily"], true, [["h"], ["1"]], true, ["d@example.com"],
        true, "s"⟩ "daily" PyDateArg.none false Option.none
      ["a@example.com"] ⟨2024, 1, 2⟩ "/home/u"
      ⟨"daily", set_dates PyDateArg.none ⟨2024, 1, 2⟩, false, true,
        OutputTarget.tempfile, Option.some ["a@example.com"]⟩ true
      (by decide) rfl⟩

/-- Claim C7: for every run constructed with `view = True`, the report is
not sent: no recipients are resolved, no email is composed or dispatched,
the output target is standard output and nothing is deleted (base.py
lines 30-33, 45-46, 98-99). -/
theorem c7_view_no_send (cls : Subclass) (freq : String) (dateArg : PyDateArg)
    (filename : Option String) (recipients : Option (List String))
    (today : Date) (home : String) (st : ReportState) (transportOk : Bool)
    (h : init cls freq dateArg true filename recipients today home =
      Except.ok st) :
    st.send = false ∧ st.target = OutputTarget.stdout ∧
    (run_report cls st transportOk).1 = ⟨false, false, false, false⟩ := by
  unfold init at h
  split at h
  case isFalse => exact Except.noConfusion h
  case isTrue hmem =>
  injection h with h'
  subst h'
  have hs : (!(optStrTruthy filename || true)) = false := by simp
  exact ⟨hs, rfl, run_report_no_send cls _ transportOk hs⟩

/-- Witness for C7 at a concrete view-mode run. -/
theorem c7_witness :
    init ⟨"r", ["daily"], true, [["h"], ["1"]], true, ["d@example.com"],
        true, "s"⟩ "daily" PyDateArg.none true Option.none Option.none
        ⟨2024, 1, 2⟩ "/home/u" =
      Except.ok ⟨"daily", set_dates PyDateArg.none ⟨2024, 1, 2⟩, true, false,
        OutputTarget.stdout, Option.none⟩ ∧
    (⟨"daily", set_dates PyDateArg.none ⟨2024, 1, 2⟩, true, false,
        OutputTarget.stdout, Option.none⟩ : ReportState).send = false ∧
    (⟨"daily", set_dates PyDateArg.none ⟨2024, 1, 2⟩, true, false,
        OutputTarget.stdout, Option.none⟩ : ReportState).target =
      OutputTarget.stdout ∧
    (run_report ⟨"r", ["daily"], true, [["h"], ["1"]], true,
        ["d@example.com"], true, "s"⟩
        ⟨"daily", set_dates PyDateArg.none ⟨2024, 1, 2⟩, true, false,
          OutputTarget.stdout, Option.none⟩ true).1 =
      ⟨false, false, false, false⟩ :=
  ⟨rfl,
    c7_view_no_send
      ⟨"r", ["daily"], true, [["h"], ["1"]], true, ["d@example.com"],
        true, "s"⟩ "daily" PyDateArg.none Option.none Option.none
      ⟨2024, 1, 2⟩ "/home/u"
      ⟨"daily", set_dates PyDateArg.none ⟨2024, 1, 2⟩, true, false,
        OutputTarget.stdout, Option.none⟩ true rfl⟩

/-- Claim C8: in the temporary-file case (no filename, no view flag), the
output target is the temporary file and sending is enabled; the file is
deleted exactly when the mail-transport send call reports success, and
when the transport raises, the temporary file is left on disk and the
transport failure propagates unmodified (base.py lines 138-144: `msg.send()`
precedes `os.remove(self.file.name)`). -/
theorem c8_tempfile_cleanup (cls : Subclass) (freq : String)
    (dateArg : PyDateArg) (recipientsArg : Option (List String))
    (today : Date) (home : String) (st : ReportState)
    (hgd : cls.overridesGetData = true)
    (hsub : cls.overridesGetEmailSubject = true)
    (hrec : optListTruthy recipientsArg = true ∨
      cls.overridesGetDefaultRecipients = true)
    (h : init cls freq dateArg false Option.none recipientsArg today home =
      Except.ok st) :
    st.target = OutputTarget.tempfile ∧ st.send = true ∧
    ((run_report cls st false).2 = Option.some PyError.transportError ∧
      (run_report cls st false).1.emailComposed = true ∧
      (run_report cls st false).1.removedFile = false) ∧
    ((run_report cls st true).2 = Option.none ∧
      (run_report cls st true).1.emailSent = true ∧
      (run_report cls st true).1.removedFile = true) := by
  unfold init at h
  split at h
  case isFalse => exact Except.noConfusion h
  case isTrue hmem =>
  injection h with h'
  subst h'
  refine ⟨rfl, rfl, ?_⟩
  have hrr : ∀ t, run_report cls
      (⟨freq, set_dates dateArg today, false,
        !(optStrTruthy Option.none || false),
        get_file false Option.none home,
        if optListTruthy recipientsArg then recipientsArg
        else Option.none⟩ : ReportState) t =
      send_results cls
      (⟨freq, set_dates dateArg today, false,
        !(optStrTruthy Option.none || false),
        get_file false Option.none home,
        if optListTruthy recipientsArg then recipientsArg
        else Option.none⟩ : ReportState) t := by
    intro t
    unfold run_report get_data_call
    rw [hgd]
    rfl
  rw [hrr, hrr]
  have hrest := fun u => send_results_rest_eval cls u hgd hsub
  rcases hrec with htr | hov
  · -- a truthy recipients argument was supplied: the hook is skipped
    cases recipientsArg with
    | none => exact absurd htr (by decide)
    | some l =>
      unfold send_results
      rw [if_pos htr]
      rw [(hrest false).1, (hrest false).2]
      exact ⟨⟨rfl, rfl, rfl⟩, rfl, rfl, rfl⟩
  · -- recipients resolved through the overridden hook
    by_cases htr : optListTruthy recipientsArg = true
    · cases recipientsArg with
      | none => exact absurd htr (by decide)
      | some l =>
        unfold send_results
        rw [if_pos htr]
        rw [(hrest false).1, (hrest false).2]
        exact ⟨⟨rfl, rfl, rfl⟩, rfl, rfl, rfl⟩
    · unfold send_results
      rw [if_neg htr]
      unfold call_get_default_recipients
      rw [hov]
      rw [(hrest true).1, (hrest true).2]
      exact ⟨⟨rfl, rfl, rfl⟩, rfl, rfl, rfl⟩

/-- Witness for C8 at a concrete temp-file run with an overridden
`get_default_recipients`. -/
theorem c8_witness :
    (⟨"r", ["daily"], true, [["h"], ["1"]], true, ["d@example.com"],
        true, "s"⟩ : Subclass).overridesGetData = true ∧
    (⟨"r", ["daily"], true, [["h"], ["1"]], true, ["d@example.com"],
        true, "s"⟩ : Subclass).overridesGetEmailSubject = true ∧
    (optListTruthy Option.none = true ∨
      (⟨"r", ["daily"], true, [["h"], ["1"]], true, ["d@example.com"],
        true, "s"⟩ : Subclass).overridesGetDefaultRecipients = true) ∧
    init ⟨"r", ["daily"], true, [["h"], ["1"]], true, ["d@example.com"],
        true, "s"⟩ "daily" PyDateArg.none false Option.none Option.none
        ⟨2024, 1, 2⟩ "/home/u" =
      Except.ok ⟨"daily", set_dates PyDateArg.none ⟨2024, 1, 2⟩, false, true,
        OutputTarget.tempfile, Option.none⟩ ∧
    ((⟨"daily", set_dates PyDateArg.none ⟨2024, 1, 2⟩, false, true,
        OutputTarget.tempfile, Option.none⟩ : ReportState).target =
      OutputTarget.tempfile ∧
    (⟨"daily", set_dates PyDateArg.none ⟨2024, 1, 2⟩, false, true,
        OutputTarget.tempfile, Option.none⟩ : ReportState).send = true ∧
    ((run_report ⟨"r", ["daily"], true, [["h"], ["1"]], true,
        ["d@example.com"], true, "s"⟩
        ⟨"daily", set_dates PyDateArg.none ⟨2024, 1, 2⟩, false, true,
          OutputTarget.tempfile, Option.none⟩ false).2 =
        Option.some PyError.transportError ∧
      (run_report ⟨"r", ["daily"], true, [["h"], ["1"]], true,
        ["d@example.com"], true, "s"⟩
        ⟨"daily", set_dates PyDateArg.none ⟨2024, 1, 2⟩, false, true,
          OutputTarget.tempfile, Option.none⟩ false).1.emailComposed = true ∧
      (run_report ⟨"r", ["daily"], true, [["h"], ["1"]], true,
        ["d@example.com"], true, "s"⟩
        ⟨"daily", set_dates PyDateArg.none ⟨2024, 1, 2⟩, false, true,
          OutputTarget.tempfile, Option.none⟩ false).1.removedFile = false) ∧
    ((run_report ⟨"r", ["daily"], true, [["h"], ["1"]], true,
        ["d@example.com"], true, "s"⟩
        ⟨"daily", set_dates PyDateArg.none ⟨2024, 1, 2⟩, false, true,
          OutputTarget.tempfile, Option.none⟩ true).2 = Option.none ∧
      (run_report ⟨"r", ["daily"], true, [["h"], ["1"]], true,
        ["d@example.com"], true, "s"⟩
        ⟨"daily", set_dates PyDateArg.none ⟨2024, 1, 2⟩, false, true,
          OutputTarget.tempfile, Option.none⟩ true).1.emailSent = true ∧
      (run_report ⟨"r", ["daily"], true, [["h"], ["1"]], true,
        ["d@example.com"], true, "s"⟩
        ⟨"daily", set_dates PyDateArg.none ⟨2024, 1, 2⟩, false, true,
          OutputTarget.tempfile, Option.none⟩ true).1.removedFile = true)) :=
  ⟨rfl, rfl, Or.inr rfl, rfl,
    c8_tempfile_cleanup
      ⟨"r", ["daily"], true, [["h"], ["1"]], true, ["d@example.com"],
        true, "s"⟩ "daily" PyDateArg.none Option.none ⟨2024, 1, 2⟩ "/home/u"
      ⟨"daily", set_dates PyDateArg.none ⟨2024, 1, 2⟩, false, true,
        OutputTarget.tempfile, Option.none⟩ rfl rfl (Or.inr rfl) rfl⟩

/-- Counterexample to C9 as stated: the filename `"a~b"` has no leading
`~`, so under the claim the output target would be the path `"a~b"`
unchanged; but base.py line 53 replaces every occurrence of `'~'`
anywhere in the filename, so the code opens `"a/hb"` (home `"/h"`). -/
theorem c9_tilde_counterexample :
    init ⟨"r", ["daily"], true, [["h"], ["1"]], true, ["d@example.com"],
        true, "s"⟩ "daily" PyDateArg.none false (Option.some "a~b")
        Option.none ⟨2024, 1, 2⟩ "/h" =
      Except.ok ⟨"daily", set_dates PyDateArg.none ⟨2024, 1, 2⟩, false, false,
        OutputTarget.file "a/hb", Option.none⟩ ∧
    OutputTarget.file "a/hb" ≠
      OutputTarget.file (leading_tilde_expand "/h" "a~b") :=
  ⟨rfl, by decide⟩

/-- Claim C9 as amended: when an explicit non-empty filename is given (and
the view flag is not set), the output target is that path opened for
writing with every occurrence of `'~'` anywhere in it replaced by the
home directory, sending is suppressed, and the file is kept on disk after
the run (never removed). -/
theorem c9_filename_target (cls : Subclass) (freq : String)
    (dateArg : PyDateArg) (recipientsArg : Option (List String))
    (today : Date) (home : String) (f : String) (st : ReportState)
    (transportOk : Bool) (hf : f ≠ "")
    (h : init cls freq dateArg false (Option.some f) recipientsArg today
      home = Except.ok st) :
    st.target = OutputTarget.file (replaceTilde home f) ∧
    st.send = false ∧
    (run_report cls st transportOk).1.removedFile = false := by
  unfold init at h
  split at h
  case isFalse => exact Except.noConfusion h
  case isTrue hmem =>
  injection h with h'
  subst h'
  have hsend : (!(optStrTruthy (Option.some f) || false)) = false := by
    have ht : optStrTruthy (Option.some f) = true := by
      unfold optStrTruthy
      simpa using hf
    rw [ht]
    rfl
  refine ⟨?_, hsend, ?_⟩
  · show (if f = "" then OutputTarget.tempfile
      else if hasTilde f.data = true then OutputTarget.file (replaceTilde home f)
      else OutputTarget.file f) = OutputTarget.file (replaceTilde home f)
    rw [if_neg hf]
    by_cases ht : hasTilde f.data = true
    · rw [if_pos ht]
    · rw [if_neg ht, replaceTilde_id home f (by simpa using ht)]
  · rw [run_report_no_send cls _ transportOk hsend]

/-- Witness for C9 (amended) at the filename `"~/out.csv"` with home
`"/home/u"`: the target is `"/home/u/out.csv"` and nothing is removed. -/
theorem c9_witness :
    ("~/out.csv" : String) ≠ "" ∧
    init ⟨"r", ["daily"], true, [["h"], ["1"]], true, ["d@example.com"],
        true, "s"⟩ "daily" PyDateArg.none false (Option.some "~/out.csv")
        Option.none ⟨2024, 1, 2⟩ "/home/u" =
      Except.ok ⟨"daily", set_dates PyDateArg.none ⟨2024, 1, 2⟩, false, false,
        OutputTarget.file "/home/u/out.csv", Option.none⟩ ∧
    ((⟨"daily", set_dates PyDateArg.none ⟨2024, 1, 2⟩, false, false,
        OutputTarget.file "/home/u/out.csv", Option.none⟩ :
          ReportState).target =
      OutputTarget.file (replaceTilde "/home/u" "~/out.csv") ∧
    (⟨"daily", set_dates PyDateArg.none ⟨2024, 1, 2⟩, false, false,
        OutputTarget.file "/home/u/out.csv", Option.none⟩ :
          ReportState).send = false ∧
    (run_report ⟨"r", ["daily"], true, [["h"], ["1"]], true,
        ["d@example.com"], true, "s"⟩
        ⟨"daily", set_dates PyDateArg.none ⟨2024, 1, 2⟩, false, false,
          OutputTarget.file "/home/u/out.csv", Option.none⟩
        true).1.removedFile = false) :=
  ⟨by decide, rfl,
    c9_filename_target
      ⟨"r", ["daily"], true, [["h"], ["1"]], true, ["d@example.com"],
        true, "s"⟩ "daily" PyDateArg.none Option.none ⟨2024, 1, 2⟩
      "/home/u" "~/out.csv"
      ⟨"daily", set_dates PyDateArg.none ⟨2024, 1, 2⟩, false, false,
        OutputTarget.file "/home/u/out.csv", Option.none⟩ true
      (by decide) rfl⟩

end Reporter
